import Mathlib

/-
Verification of the Hydro-Québec coordinator
(custom_components/hydroqc/coordinator/base.py).

The development shallowly embeds the scheduling/decision logic of
HydroQcDataCoordinator: the pure timing predicates (_is_winter_season,
_is_opendata_active_window, _is_portal_active_window,
_should_update_opendata, _should_update_portal), the offline-log
rate limiter embedded in _async_update_data, and _async_update_data
itself as a state-transition function over an explicit coordinator
state, driven by an environment record that supplies the outcomes of
all external calls (clock reads, network fetches, task doneness).
-/

namespace Hydroqc

/-- A wall-clock instant as the coordinator reads it: the calendar fields
consulted by the scheduling decisions (month, hour, minute) together with an
absolute epoch-second count; datetime subtraction followed by
total_seconds() in the source becomes subtraction of the sec fields.
Sub-second precision is dropped: every comparison in the source is against
whole-second thresholds. -/
structure Time where
  month : Nat
  hour : Nat
  minute : Nat
  sec : Int
deriving DecidableEq

/-- CONF_AUTH_MODE: exactly two modes exist (AUTH_MODE_PORTAL,
AUTH_MODE_OPENDATA), fixed at configuration time. -/
inductive AuthMode
  | portal
  | opendata
deriving DecidableEq

/-- Configuration read once in HydroQcDataCoordinator.__init__ that the tick
consults: the auth mode and the rate / rate-option strings. (The preheat
duration is only forwarded to external capability calls and carries no
decision weight, so it is not modelled.) -/
structure Config where
  auth_mode : AuthMode
  rate : String
  rate_option : String
deriving DecidableEq

/-- is_portal_mode property: auth mode equals AUTH_MODE_PORTAL. -/
def is_portal_mode (cfg : Config) : Bool :=
  cfg.auth_mode == AuthMode.portal

/-- is_opendata_mode property: auth mode equals AUTH_MODE_OPENDATA. -/
def is_opendata_mode (cfg : Config) : Bool :=
  cfg.auth_mode == AuthMode.opendata

/-- Whether the rate-specific branch of _async_update_data performs awaited
capability calls for this configuration: rate D with option CPC, rate DPC,
or rate DT (the three mutually exclusive branches in the source). For any
other rate no rate-specific call is made, so none can raise. -/
def rateBranchCalls (cfg : Config) : Bool :=
  (cfg.rate == "D" && cfg.rate_option == "CPC")
    || cfg.rate == "DPC" || cfg.rate == "DT"

/-- _is_winter_season: month is one of December, January, February, March. -/
def is_winter_season (now : Time) : Bool :=
  now.month == 12 || now.month == 1 || now.month == 2 || now.month == 3

/-- _is_opendata_active_window: 11 <= hour < 18. -/
def is_opendata_active_window (now : Time) : Bool :=
  11 ≤ now.hour && now.hour < 18

/-- _is_portal_active_window: 0 <= hour < 8 (the lower bound is vacuous for
Nat hours, as it is for Python datetime hours). -/
def is_portal_active_window (now : Time) : Bool :=
  now.hour < 8

/-- _should_update_opendata: off-season short-circuits to false; an unset
last-update fires; within the first five minutes of a new hour an update is
forced when the stored hour differs; otherwise elapsed seconds are compared
against 300 (active window) or 3600. -/
def should_update_opendata (now : Time) (lastUpdate : Option Time) : Bool :=
  if !is_winter_season now then false
  else
    match lastUpdate with
    | none => true
    | some last =>
      let elapsed := now.sec - last.sec
      if now.minute < 5 && last.hour != now.hour then true
      else if is_opendata_active_window now then elapsed ≥ 300
      else elapsed ≥ 3600

/-- _should_update_portal: an unset last-update fires; otherwise elapsed
seconds are compared against 3600 (active window) or 10800. -/
def should_update_portal (now : Time) (lastUpdate : Option Time) : Bool :=
  match lastUpdate with
  | none => true
  | some last =>
    let elapsed := now.sec - last.sec
    if is_portal_active_window now then elapsed ≥ 3600
    else elapsed ≥ 10800

/-- The data dict built and returned by _async_update_data: the three
authenticated references, each initialised to None at the top of every tick.
Entities are abstracted to identifiers. (The public_client entry always
holds the same client object and is omitted.) -/
structure Snapshot where
  contract : Option Nat
  account : Option Nat
  customer : Option Nat
deriving DecidableEq

/-- The data dict as initialised at the top of _async_update_data. -/
def Snapshot.nulls : Snapshot :=
  { contract := none, account := none, customer := none }

/-- The mutable attributes of HydroQcDataCoordinator that
_async_update_data reads or writes, plus one modelling flag per background
task variable recording whether a task object is currently stored in it. -/
structure CoordState where
  last_peak_update_hour : Option Nat
  last_opendata_update : Option Time
  last_portal_update : Option Time
  last_consumption_sync : Option Time
  last_peak_events_count : Nat
  portal_last_offline_log : Option Time
  portal_available : Option Bool
  customer_attr : Option Nat
  account_attr : Option Nat
  contract_attr : Option Nat
  last_update_success_time : Option Time
  calendar_task_exists : Bool
  regular_sync_task_exists : Bool
deriving DecidableEq

/-- Coordinator state as established by __init__ (first_refresh_done is set
there as well, so the hasattr check in the tick is always true). -/
def initialState : CoordState :=
  { last_peak_update_hour := none
    last_opendata_update := none
    last_portal_update := none
    last_consumption_sync := none
    last_peak_events_count := 0
    portal_last_offline_log := none
    portal_available := none
    customer_attr := none
    account_attr := none
    contract_attr := none
    last_update_success_time := none
    calendar_task_exists := false
    regular_sync_task_exists := false }

/-- Outcomes of every external interaction one execution of
_async_update_data can perform, fixed up front: the clock (a single instant
per tick), success/failure of each awaited fetch, the peak-handler view, and
the done() status each stored task object would report when polled. -/
structure TickEnv where
  now : Time
  opendata_ok : Bool
  calendar_entity : Bool
  peak_handler : Bool
  current_peak_count : Nat
  calendar_task_done : Bool
  portal_is_available : Bool
  session_expired : Bool
  login_ok : Bool
  get_info_ok : Bool
  fetch_customers_ok : Bool
  customer_info_ok : Bool
  periods_ok : Bool
  outages_ok : Bool
  rate_ok : Bool
  fail_http : Bool
  fetched_customer : Nat
  fetched_account : Nat
  fetched_contract : Nat
  enable_consumption_sync : Bool
  regular_task_done : Bool
deriving DecidableEq

/-- How one tick ends: a returned data dict, or an UpdateFailed raise
carrying the classification of the underlying exception (true when it was a
HydroQcHTTPError, false for any other exception). -/
inductive TickResult
  | ok (d : Snapshot)
  | failed (http : Bool)
deriving DecidableEq

/-- The host update-coordinator contract: a returned dict replaces the
published data; an UpdateFailed raise leaves the previously published data
in place for observers. -/
def publish (prev : Snapshot) (r : TickResult) : Snapshot :=
  match r with
  | TickResult.ok d => d
  | TickResult.failed _ => prev

/-- The portal-offline log rate limiter inlined in _async_update_data:
log when no previous offline log is recorded or at least 3600 seconds have
elapsed since it, recording now; otherwise stay silent and keep the record.
Returns (logged?, new record). -/
def offlineLogStep (lastLog : Option Time) (now : Time) : Bool × Option Time :=
  match lastLog with
  | none => (true, some now)
  | some t =>
    if now.sec - t.sec ≥ 3600 then (true, some now)
    else (false, lastLog)

/-- The OpenData section of the tick: when due, attempt the public fetch; on
success record the update time and, when the hour changed since the last
peak update, record the new hour; a fetch exception is caught and logged,
leaving the state untouched; when not due nothing changes. -/
def opendataPhase (env : TickEnv) (s : CoordState) : CoordState :=
  let shouldPeaks := s.last_peak_update_hour != some env.now.hour
  if should_update_opendata env.now s.last_opendata_update then
    if env.opendata_ok then
      let s1 := { s with last_opendata_update := some env.now }
      if shouldPeaks then
        { s1 with last_peak_update_hour := some env.now.hour }
      else s1
    else s
  else s

/-- The calendar-sync section of the tick: guarded by the calendar entity
and peak handler being present; when the observed peak-event count differs
from the recorded one, a sync task is created only if no task object is
stored or the stored one reports done, and only then is the recorded count
advanced. Returns (state, whether a new task was started). -/
def calendarPhase (env : TickEnv) (s : CoordState) : CoordState × Bool :=
  if env.calendar_entity && env.peak_handler then
    if env.current_peak_count != s.last_peak_events_count then
      if !s.calendar_task_exists || env.calendar_task_done then
        ({ s with
            calendar_task_exists := true
            last_peak_events_count := env.current_peak_count }, true)
      else (s, false)
    else (s, false)
  else (s, false)

/-- How the portal section of the tick can leave the function. -/
inductive PortalOutcome
  | proceed (s : CoordState) (d : Snapshot)
  | offline (s : CoordState) (d : Snapshot)
  | aborted (s : CoordState) (http : Bool)
deriving DecidableEq

/-- The portal section of _async_update_data, reached only in portal mode
(where the webuser attribute is always set). When not due, fall through
with the data dict untouched. When due: record availability; if the portal
is offline, run the offline-log limiter and return the data dict early.
Otherwise run the authenticated chain in source order - login if the
session expired, get_info, fetch_customers_info, assign the customer
attribute, customer get_info, assign the account and contract attributes,
get_periods_info, refresh_outages, then the rate-specific calls - where the
first failing awaited step raises, aborting with whatever attribute writes
already happened kept. On full success the three data-dict fields are
written together and the portal update time is recorded. -/
def portalPhase (cfg : Config) (env : TickEnv) (s : CoordState)
    (d : Snapshot) : PortalOutcome :=
  if !should_update_portal env.now s.last_portal_update then
    PortalOutcome.proceed s d
  else
    let s := { s with portal_available := some env.portal_is_available }
    if !env.portal_is_available then
      let r := offlineLogStep s.portal_last_offline_log env.now
      PortalOutcome.offline { s with portal_last_offline_log := r.2 } d
    else
      if env.session_expired && !env.login_ok then
        PortalOutcome.aborted s env.fail_http
      else if !env.get_info_ok then
        PortalOutcome.aborted s env.fail_http
      else if !env.fetch_customers_ok then
        PortalOutcome.aborted s env.fail_http
      else
        let s := { s with customer_attr := some env.fetched_customer }
        if !env.customer_info_ok then
          PortalOutcome.aborted s env.fail_http
        else
          let s := { s with
            account_attr := some env.fetched_account
            contract_attr := some env.fetched_contract }
          if !env.periods_ok then
            PortalOutcome.aborted s env.fail_http
          else if !env.outages_ok then
            PortalOutcome.aborted s env.fail_http
          else if rateBranchCalls cfg && !env.rate_ok then
            PortalOutcome.aborted s env.fail_http
          else
            PortalOutcome.proceed
              { s with last_portal_update := some env.now }
              { d with
                  contract := some env.fetched_contract
                  account := some env.fetched_account
                  customer := some env.fetched_customer }

/-- The consumption-sync trigger at the tail of the tick: in portal mode,
with a contract attribute set and the sync enabled (the hasattr guard on
first_refresh_done is always true), start a regular sync task when no sync
time is recorded or at least 3600 seconds elapsed since the last one; the
stored task object is never polled here. Returns (state, started?). -/
def consumptionPhase (cfg : Config) (env : TickEnv) (s : CoordState) :
    CoordState × Bool :=
  if is_portal_mode cfg && s.contract_attr.isSome
      && env.enable_consumption_sync then
    let shouldSync :=
      match s.last_consumption_sync with
      | none => true
      | some t => env.now.sec - t.sec ≥ 3600
    if shouldSync then
      ({ s with
          regular_sync_task_exists := true
          last_consumption_sync := some env.now }, true)
    else (s, false)
  else (s, false)

/-- Result of one full execution of _async_update_data: the coordinator
state it leaves behind, how it returned, and which background tasks it
started during this execution. -/
structure TickOut where
  state : CoordState
  result : TickResult
  started_calendar_sync : Bool
  started_consumption_sync : Bool
deriving DecidableEq

/-- One execution of _async_update_data: initialise the data dict with null
authenticated fields, run the OpenData section, then the calendar-sync
section; in opendata mode return the data dict immediately; otherwise run
the portal section - an offline early return publishes the data dict
without recording the success time, an abort raises UpdateFailed, and
otherwise the success time is recorded and the consumption-sync trigger
runs before the data dict is returned. -/
def tick (cfg : Config) (env : TickEnv) (s : CoordState) : TickOut :=
  let d := Snapshot.nulls
  let s1 := opendataPhase env s
  let calRes := calendarPhase env s1
  let s2 := calRes.1
  let startedCal := calRes.2
  if is_opendata_mode cfg then
    { state := s2, result := TickResult.ok d
      started_calendar_sync := startedCal
      started_consumption_sync := false }
  else
    match portalPhase cfg env s2 d with
    | PortalOutcome.offline s3 d3 =>
      { state := s3, result := TickResult.ok d3
        started_calendar_sync := startedCal
        started_consumption_sync := false }
    | PortalOutcome.aborted s3 http =>
      { state := s3, result := TickResult.failed http
        started_calendar_sync := startedCal
        started_consumption_sync := false }
    | PortalOutcome.proceed s3 d3 =>
      let s4 := { s3 with last_update_success_time := some env.now }
      let consRes := consumptionPhase cfg env s4
      { state := consRes.1, result := TickResult.ok d3
        started_calendar_sync := startedCal
        started_consumption_sync := consRes.2 }

/-- The authenticated chain runs to completion for this configuration and
environment: every awaited step that executes succeeds. -/
def chainOk (cfg : Config) (env : TickEnv) : Bool :=
  (!env.session_expired || env.login_ok)
    && env.get_info_ok && env.fetch_customers_ok && env.customer_info_ok
    && env.periods_ok && env.outages_ok
    && (!rateBranchCalls cfg || env.rate_ok)

/-- C7: for every time whose month is not December, January, February or
March, _should_update_opendata returns false, whatever the elapsed time and
whether or not a last update is recorded: the seasonal gate is evaluated
first. -/
theorem C7_offseason_gate (now : Time) (lastUpdate : Option Time)
    (h12 : now.month ≠ 12) (h1 : now.month ≠ 1) (h2 : now.month ≠ 2)
    (h3 : now.month ≠ 3) :
    should_update_opendata now lastUpdate = false := by
  have hw : is_winter_season now = false := by
    simp [is_winter_season, h12, h1, h2, h3]
  unfold should_update_opendata
  simp [hw]

/-- C7 witness: July 15th, noon, with no recorded update and with a recorded
update an arbitrary day old: the public feed is never due. -/
theorem C7_witness :
    should_update_opendata ⟨7, 12, 30, 1000000⟩ none = false :=
  C7_offseason_gate ⟨7, 12, 30, 1000000⟩ none
    (by decide) (by decide) (by decide) (by decide)

/-- C6: with the season active and a last update recorded, whenever the
current minute-of-hour is below 5 and the recorded update's hour differs
from the current hour, _should_update_opendata returns true whatever the
elapsed time: the hour-boundary force rule precedes the elapsed-time rule. -/
theorem C6_hour_boundary_force (now last : Time)
    (hw : is_winter_season now = true) (hm : now.minute < 5)
    (hh : last.hour ≠ now.hour) :
    should_update_opendata now (some last) = true := by
  unfold should_update_opendata
  simp [hw, hm, hh]

/-- C6 witness: last update at 10:58, now 11:02 in January, 240 elapsed
seconds - below both the 300 second active-window interval and the 3600
second off-window interval - yet the update fires at the hour boundary. -/
theorem C6_witness :
    (⟨1, 11, 2, 3720⟩ : Time).sec - (⟨1, 10, 58, 3480⟩ : Time).sec = 240 ∧
      (240 : Int) < 300 ∧
      should_update_opendata ⟨1, 11, 2, 3720⟩ (some ⟨1, 10, 58, 3480⟩) = true :=
  ⟨by decide, by decide,
    C6_hour_boundary_force ⟨1, 11, 2, 3720⟩ ⟨1, 10, 58, 3480⟩
      (by decide) (by decide) (by decide)⟩

/-- C5 counterexample: the claim asserts the first-run rule fires for both
sources at every current time, but with no recorded update at noon of
July 15th - a month outside the winter season - _should_update_opendata
returns false: the seasonal gate is evaluated before the first-run rule. -/
theorem C5_counterexample_offseason_first_run :
    should_update_opendata ⟨7, 12, 0, 0⟩ none = false := by decide

/-- C5 amended: with an unset last-update timestamp, _should_update_portal
returns true at every current time, and _should_update_opendata returns
true at every seasonally active current time (months 12, 1, 2, 3); in an
off-season month the seasonal gate makes it return false first. -/
theorem C5_amended_first_run (now : Time) :
    should_update_portal now none = true ∧
      (is_winter_season now = true → should_update_opendata now none = true) := by
  constructor
  · rfl
  · intro hw
    unfold should_update_opendata
    simp [hw]

/-- C5 amended witness: January 1st midnight, nothing recorded: the portal
is due, and the season being active the public feed is due as well. -/
theorem C5_amended_witness :
    should_update_portal ⟨1, 0, 0, 0⟩ none = true ∧
      should_update_opendata ⟨1, 0, 0, 0⟩ none = true :=
  ⟨(C5_amended_first_run ⟨1, 0, 0, 0⟩).1,
    (C5_amended_first_run ⟨1, 0, 0, 0⟩).2 (by decide)⟩

/-- C8: the portal-offline log limiter logs exactly when no previous log is
recorded or at least 3600 seconds elapsed since it; when it logs it records
the current time, when it stays silent it keeps the previous record; and in
particular, starting from no record, a log at t0 succeeds, one at t0+1800
is suppressed, and one at t0+3601 succeeds again. -/
theorem C8_offline_log_rate_limit (lastLog : Option Time) (now : Time)
    (t0 : Int) :
    ((offlineLogStep lastLog now).1 = true ↔
        (lastLog = none ∨ ∃ t, lastLog = some t ∧ now.sec - t.sec ≥ 3600)) ∧
      ((offlineLogStep lastLog now).1 = true →
        (offlineLogStep lastLog now).2 = some now) ∧
      ((offlineLogStep lastLog now).1 = false →
        (offlineLogStep lastLog now).2 = lastLog) ∧
      ((offlineLogStep none ⟨1, 0, 0, t0⟩).1 = true ∧
        (offlineLogStep (offlineLogStep none ⟨1, 0, 0, t0⟩).2
            ⟨1, 0, 30, t0 + 1800⟩).1 = false ∧
        (offlineLogStep
            (offlineLogStep (offlineLogStep none ⟨1, 0, 0, t0⟩).2
              ⟨1, 0, 30, t0 + 1800⟩).2
            ⟨1, 1, 0, t0 + 3601⟩).1 = true) := by
  have h2 : ¬ (t0 + 1800 - t0 ≥ 3600) := by omega
  have h3 : t0 + 3601 - t0 ≥ 3600 := by omega
  refine ⟨?_, ?_, ?_, ?_⟩
  · cases lastLog with
    | none => simp [offlineLogStep]
    | some t =>
      unfold offlineLogStep
      by_cases h : now.sec - t.sec ≥ 3600 <;> simp [h]
  · cases lastLog with
    | none => intro _; rfl
    | some t =>
      unfold offlineLogStep
      by_cases h : now.sec - t.sec ≥ 3600 <;> simp [h]
  · cases lastLog with
    | none => simp [offlineLogStep]
    | some t =>
      unfold offlineLogStep
      by_cases h : now.sec - t.sec ≥ 3600 <;> simp [h]
  · refine ⟨rfl, ?_, ?_⟩
    · simp [offlineLogStep, h2]
    · simp [offlineLogStep, h2, h3]

/-- C8 witness: with a log recorded at second 0, a call at second 3600 logs
again (the cooldown is inclusive) and re-records the current time. -/
theorem C8_witness :
    (offlineLogStep (some ⟨1, 0, 0, 0⟩) ⟨1, 1, 0, 3600⟩).2 =
      some ⟨1, 1, 0, 3600⟩ :=
  (C8_offline_log_rate_limit (some ⟨1, 0, 0, 0⟩) ⟨1, 1, 0, 3600⟩ 0).2.1
    (by decide)

/-- The OpenData section writes at most the open-data update time and the
peak-update hour; every other coordinator field passes through. -/
theorem opendataPhase_shape (env : TickEnv) (s : CoordState) :
    ∃ u hr, opendataPhase env s =
      { s with last_opendata_update := u, last_peak_update_hour := hr } := by
  unfold opendataPhase
  dsimp only
  split_ifs <;> exact ⟨_, _, rfl⟩

/-- The calendar-sync section writes at most the task flag and the recorded
peak-event count; every other coordinator field passes through. -/
theorem calendarPhase_shape (env : TickEnv) (s : CoordState) :
    ∃ ce pc st, calendarPhase env s =
      ({ s with calendar_task_exists := ce, last_peak_events_count := pc },
        st) := by
  unfold calendarPhase
  split_ifs <;> exact ⟨_, _, _, rfl⟩

/-- The two sections preceding the portal section, composed: at most the
open-data update time, the peak-update hour, the calendar task flag and the
recorded peak-event count change before the portal section runs. -/
theorem preportalShape (env : TickEnv) (s : CoordState) :
    ∃ u hr ce pc st, calendarPhase env (opendataPhase env s) =
      ({ s with
          last_opendata_update := u
          last_peak_update_hour := hr
          calendar_task_exists := ce
          last_peak_events_count := pc },
        st) := by
  obtain ⟨u, hr, h1⟩ := opendataPhase_shape env s
  obtain ⟨ce, pc, st, h2⟩ := calendarPhase_shape env (opendataPhase env s)
  refine ⟨u, hr, ce, pc, st, ?_⟩
  rw [h2, h1]

/-- The consumption-sync trigger writes at most the task flag and the
recorded sync time; every other coordinator field passes through. -/
theorem consumptionPhase_shape (cfg : Config) (env : TickEnv)
    (s : CoordState) :
    ∃ r lc st, consumptionPhase cfg env s =
      ({ s with regular_sync_task_exists := r, last_consumption_sync := lc },
        st) := by
  unfold consumptionPhase
  dsimp only
  split_ifs <;> exact ⟨_, _, _, rfl⟩

/-- A portal section that is not due falls through unchanged. -/
theorem portalPhase_not_due (cfg : Config) (env : TickEnv) (s : CoordState)
    (d : Snapshot)
    (h : should_update_portal env.now s.last_portal_update = false) :
    portalPhase cfg env s d = PortalOutcome.proceed s d := by
  unfold portalPhase
  simp [h]

/-- A due portal section finding the portal offline records availability,
runs the offline-log limiter, and returns the data dict early; nothing else
changes. -/
theorem portalPhase_offline (cfg : Config) (env : TickEnv) (s : CoordState)
    (d : Snapshot)
    (hdue : should_update_portal env.now s.last_portal_update = true)
    (hav : env.portal_is_available = false) :
    portalPhase cfg env s d =
      PortalOutcome.offline
        { s with
            portal_available := some env.portal_is_available
            portal_last_offline_log :=
              (offlineLogStep s.portal_last_offline_log env.now).2 } d := by
  unfold portalPhase
  simp [hdue, hav]

/-- A due portal section with the portal available and every chain step
succeeding: the three attributes and the portal update time are written,
and the data dict receives the three fetched entities together. -/
theorem portalPhase_success (cfg : Config) (env : TickEnv) (s : CoordState)
    (d : Snapshot)
    (hdue : should_update_portal env.now s.last_portal_update = true)
    (hav : env.portal_is_available = true)
    (hchain : chainOk cfg env = true) :
    portalPhase cfg env s d =
      PortalOutcome.proceed
        { s with
            portal_available := some env.portal_is_available
            customer_attr := some env.fetched_customer
            account_attr := some env.fetched_account
            contract_attr := some env.fetched_contract
            last_portal_update := some env.now }
        { d with
            contract := some env.fetched_contract
            account := some env.fetched_account
            customer := some env.fetched_customer } := by
  simp only [chainOk, Bool.and_eq_true, Bool.or_eq_true,
    Bool.not_eq_true'] at hchain
  obtain ⟨⟨⟨⟨⟨⟨hse, hgi⟩, hfc⟩, hci⟩, hp⟩, ho⟩, hr⟩ := hchain
  unfold portalPhase
  rcases hse with h | h <;> rcases hr with h' | h' <;>
    simp [hdue, hav, h, h', hgi, hfc, hci, hp, ho]

/-- A due portal section with the portal available and some chain step
failing aborts with the per-tick error classification, leaving the portal
update time and every field the later part of the tick reads unchanged. -/
theorem portalPhase_abort (cfg : Config) (env : TickEnv) (s : CoordState)
    (d : Snapshot)
    (hdue : should_update_portal env.now s.last_portal_update = true)
    (hav : env.portal_is_available = true)
    (hchain : chainOk cfg env = false) :
    ∃ s3, portalPhase cfg env s d = PortalOutcome.aborted s3 env.fail_http ∧
      s3.last_portal_update = s.last_portal_update ∧
      s3.last_opendata_update = s.last_opendata_update ∧
      s3.last_update_success_time = s.last_update_success_time ∧
      s3.last_consumption_sync = s.last_consumption_sync ∧
      s3.regular_sync_task_exists = s.regular_sync_task_exists ∧
      s3.calendar_task_exists = s.calendar_task_exists ∧
      s3.last_peak_events_count = s.last_peak_events_count ∧
      s3.last_peak_update_hour = s.last_peak_update_hour := by
  unfold portalPhase
  simp only [hdue, hav, Bool.not_true, Bool.false_eq_true, if_false,
    if_true, Bool.true_eq_false, ite_false, ite_true]
  split_ifs with h1 h2 h3 h4 h5 h6 h7
  · exact ⟨_, rfl, rfl, rfl, rfl, rfl, rfl, rfl, rfl, rfl⟩
  · exact ⟨_, rfl, rfl, rfl, rfl, rfl, rfl, rfl, rfl, rfl⟩
  · exact ⟨_, rfl, rfl, rfl, rfl, rfl, rfl, rfl, rfl, rfl⟩
  · exact ⟨_, rfl, rfl, rfl, rfl, rfl, rfl, rfl, rfl, rfl⟩
  · exact ⟨_, rfl, rfl, rfl, rfl, rfl, rfl, rfl, rfl, rfl⟩
  · exact ⟨_, rfl, rfl, rfl, rfl, rfl, rfl, rfl, rfl, rfl⟩
  · exact ⟨_, rfl, rfl, rfl, rfl, rfl, rfl, rfl, rfl, rfl⟩
  · exfalso
    revert hchain
    simp only [chainOk]
    simp_all
    cases hse : env.session_expired
    · exact Or.inl rfl
    · exact Or.inr (h1 hse)

/-- The coordinator state carried by a portal-section outcome. -/
def PortalOutcome.state : PortalOutcome → CoordState
  | PortalOutcome.proceed s _ => s
  | PortalOutcome.offline s _ => s
  | PortalOutcome.aborted s _ => s

/-- Fields the portal section never writes, whatever its outcome. -/
theorem portalPhase_state_keeps (cfg : Config) (env : TickEnv)
    (s : CoordState) (d : Snapshot) :
    (portalPhase cfg env s d).state.last_opendata_update =
        s.last_opendata_update ∧
      (portalPhase cfg env s d).state.last_peak_update_hour =
        s.last_peak_update_hour ∧
      (portalPhase cfg env s d).state.calendar_task_exists =
        s.calendar_task_exists ∧
      (portalPhase cfg env s d).state.last_peak_events_count =
        s.last_peak_events_count ∧
      (portalPhase cfg env s d).state.last_update_success_time =
        s.last_update_success_time ∧
      (portalPhase cfg env s d).state.last_consumption_sync =
        s.last_consumption_sync ∧
      (portalPhase cfg env s d).state.regular_sync_task_exists =
        s.regular_sync_task_exists := by
  unfold portalPhase
  dsimp only
  split_ifs <;> simp [PortalOutcome.state]

/-- The portal update time either passes through the portal section
unchanged or is set to the tick instant. -/
theorem portalPhase_ts_dichotomy (cfg : Config) (env : TickEnv)
    (s : CoordState) (d : Snapshot) :
    (portalPhase cfg env s d).state.last_portal_update =
        s.last_portal_update ∨
      (portalPhase cfg env s d).state.last_portal_update = some env.now := by
  unfold portalPhase
  dsimp only
  split_ifs <;> simp [PortalOutcome.state]

/-- An OpenData section that is not due changes nothing. -/
theorem opendataPhase_not_due (env : TickEnv) (s : CoordState)
    (h : should_update_opendata env.now s.last_opendata_update = false) :
    opendataPhase env s = s := by
  unfold opendataPhase
  simp [h]

/-- An OpenData section whose fetch raises changes nothing: the exception
is caught and only logged. -/
theorem opendataPhase_fetch_failed (env : TickEnv) (s : CoordState)
    (h : env.opendata_ok = false) :
    opendataPhase env s = s := by
  unfold opendataPhase
  dsimp only
  split_ifs <;> simp_all

/-- A due OpenData section whose fetch succeeds records the tick instant as
the open-data update time. -/
theorem opendataPhase_success (env : TickEnv) (s : CoordState)
    (hdue : should_update_opendata env.now s.last_opendata_update = true)
    (hok : env.opendata_ok = true) :
    (opendataPhase env s).last_opendata_update = some env.now := by
  unfold opendataPhase
  dsimp only
  split_ifs <;> simp_all

/-- The open-data update time either passes through the OpenData section
unchanged or is set to the tick instant. -/
theorem opendataPhase_ts_dichotomy (env : TickEnv) (s : CoordState) :
    (opendataPhase env s).last_opendata_update = s.last_opendata_update ∨
      (opendataPhase env s).last_opendata_update = some env.now := by
  unfold opendataPhase
  dsimp only
  split_ifs <;> simp

/-- After a full tick, the open-data update time is exactly what the
OpenData section left: no later section writes it. -/
theorem tick_od_ts (cfg : Config) (env : TickEnv) (s : CoordState) :
    (tick cfg env s).state.last_opendata_update =
      (opendataPhase env s).last_opendata_update := by
  obtain ⟨ce, pc, st, hcal⟩ := calendarPhase_shape env (opendataPhase env s)
  have hk := (portalPhase_state_keeps cfg env
    (calendarPhase env (opendataPhase env s)).1 Snapshot.nulls).1
  by_cases hm : is_opendata_mode cfg = true
  · unfold tick
    dsimp only
    simp only [hm, if_true]
    rw [hcal]
  · simp only [Bool.not_eq_true] at hm
    unfold tick
    dsimp only
    simp only [hm, Bool.false_eq_true, if_false]
    cases hps : portalPhase cfg env
        (calendarPhase env (opendataPhase env s)).1 Snapshot.nulls with
    | offline s3 d3 =>
      rw [hps] at hk
      dsimp only [PortalOutcome.state] at hk
      rw [hk, hcal]
    | aborted s3 http =>
      rw [hps] at hk
      dsimp only [PortalOutcome.state] at hk
      rw [hk, hcal]
    | proceed s3 d3 =>
      rw [hps] at hk
      dsimp only [PortalOutcome.state] at hk
      obtain ⟨r, lc, st2, hcons⟩ := consumptionPhase_shape cfg env
        { s3 with last_update_success_time := some env.now }
      dsimp only
      rw [hcons]
      dsimp only
      rw [hk, hcal]

/-- After a full tick, the started-calendar flag, the recorded peak-event
count and the calendar task flag are exactly what the calendar section
left: no later section writes them. -/
theorem tick_cal (cfg : Config) (env : TickEnv) (s : CoordState) :
    (tick cfg env s).started_calendar_sync =
        (calendarPhase env (opendataPhase env s)).2 ∧
      (tick cfg env s).state.last_peak_events_count =
        (calendarPhase env (opendataPhase env s)).1.last_peak_events_count ∧
      (tick cfg env s).state.calendar_task_exists =
        (calendarPhase env (opendataPhase env s)).1.calendar_task_exists := by
  have hk3 := portalPhase_state_keeps cfg env
    (calendarPhase env (opendataPhase env s)).1 Snapshot.nulls
  by_cases hm : is_opendata_mode cfg = true
  · unfold tick
    dsimp only
    simp only [hm, if_true]
    simp
  · simp only [Bool.not_eq_true] at hm
    unfold tick
    dsimp only
    simp only [hm, Bool.false_eq_true, if_false]
    cases hps : portalPhase cfg env
        (calendarPhase env (opendataPhase env s)).1 Snapshot.nulls with
    | offline s3 d3 =>
      rw [hps] at hk3
      dsimp only [PortalOutcome.state] at hk3
      exact ⟨rfl, hk3.2.2.2.1, hk3.2.2.1⟩
    | aborted s3 http =>
      rw [hps] at hk3
      dsimp only [PortalOutcome.state] at hk3
      exact ⟨rfl, hk3.2.2.2.1, hk3.2.2.1⟩
    | proceed s3 d3 =>
      rw [hps] at hk3
      dsimp only [PortalOutcome.state] at hk3
      obtain ⟨r, lc, st2, hcons⟩ := consumptionPhase_shape cfg env
        { s3 with last_update_success_time := some env.now }
      dsimp only
      rw [hcons]
      dsimp only
      exact ⟨rfl, hk3.2.2.2.1, hk3.2.2.1⟩

/-- After a full tick, the portal update time is either exactly its pre-tick
value or the tick instant: it never moves anywhere else. -/
theorem tick_portal_ts_dichotomy (cfg : Config) (env : TickEnv)
    (s : CoordState) :
    (tick cfg env s).state.last_portal_update = s.last_portal_update ∨
      (tick cfg env s).state.last_portal_update = some env.now := by
  obtain ⟨u, hr, ce, pc, st, hpre⟩ := preportalShape env s
  have hlp : (calendarPhase env (opendataPhase env s)).1.last_portal_update =
      s.last_portal_update := by
    rw [hpre]
  have hd := portalPhase_ts_dichotomy cfg env
    (calendarPhase env (opendataPhase env s)).1 Snapshot.nulls
  rw [hlp] at hd
  by_cases hm : is_opendata_mode cfg = true
  · left
    unfold tick
    dsimp only
    simp only [hm, if_true]
    exact hlp
  · simp only [Bool.not_eq_true] at hm
    unfold tick
    dsimp only
    simp only [hm, Bool.false_eq_true, if_false]
    cases hps : portalPhase cfg env
        (calendarPhase env (opendataPhase env s)).1 Snapshot.nulls with
    | offline s3 d3 =>
      rw [hps] at hd
      dsimp only [PortalOutcome.state] at hd
      exact hd
    | aborted s3 http =>
      rw [hps] at hd
      dsimp only [PortalOutcome.state] at hd
      exact hd
    | proceed s3 d3 =>
      rw [hps] at hd
      dsimp only [PortalOutcome.state] at hd
      obtain ⟨r, lc, st2, hcons⟩ := consumptionPhase_shape cfg env
        { s3 with last_update_success_time := some env.now }
      dsimp only
      rw [hcons]
      dsimp only
      exact hd

/-- The calendar section starts a task exactly when the entity and peak
handler are present, the observed count differs from the recorded one, and
no stored task is still running. -/
theorem calendarPhase_started_iff (env : TickEnv) (x : CoordState) :
    (calendarPhase env x).2 = true ↔
      (env.calendar_entity = true ∧ env.peak_handler = true ∧
        env.current_peak_count ≠ x.last_peak_events_count ∧
        (x.calendar_task_exists = false ∨ env.calendar_task_done = true)) := by
  unfold calendarPhase
  split_ifs <;> simp_all

/-- A calendar section that does not start a task changes nothing: in
particular the recorded peak-event count is kept, so a changed count still
differs on the next tick. -/
theorem calendarPhase_no_start_keeps (env : TickEnv) (x : CoordState)
    (h : (calendarPhase env x).2 = false) :
    (calendarPhase env x).1 = x := by
  unfold calendarPhase at h ⊢
  split_ifs at h ⊢ <;> simp_all

/-- A calendar section that starts a task records the observed count as the
new trigger key. -/
theorem calendarPhase_start_records (env : TickEnv) (x : CoordState)
    (h : (calendarPhase env x).2 = true) :
    (calendarPhase env x).1.last_peak_events_count =
      env.current_peak_count := by
  unfold calendarPhase at h ⊢
  split_ifs at h ⊢ <;> simp_all

/-- The consumption-sync trigger fires only in portal mode, with the sync
enabled, and with no recorded sync time or at least 3600 elapsed seconds;
the stored task object's running state is not consulted. -/
theorem consumptionPhase_started (cfg : Config) (env : TickEnv)
    (x : CoordState) (h : (consumptionPhase cfg env x).2 = true) :
    is_portal_mode cfg = true ∧ env.enable_consumption_sync = true ∧
      (x.last_consumption_sync = none ∨
        ∃ t, x.last_consumption_sync = some t ∧
          env.now.sec - t.sec ≥ 3600) := by
  rcases hx : x.last_consumption_sync with _ | t
  · unfold consumptionPhase at h
    rw [hx] at h
    dsimp only at h
    split_ifs at h <;> simp_all
  · unfold consumptionPhase at h
    rw [hx] at h
    dsimp only at h
    split_ifs at h with h1 h2 <;> simp_all

/-- The portal update time survives any tick whose portal chain did not run
to success: opendata mode, a portal section that was not due, an offline
portal, or a chain abort all leave it exactly as it was. -/
theorem tick_portal_ts_unchanged (cfg : Config) (env : TickEnv)
    (s : CoordState)
    (h : ¬(cfg.auth_mode = AuthMode.portal ∧
      should_update_portal env.now s.last_portal_update = true ∧
      env.portal_is_available = true ∧ chainOk cfg env = true)) :
    (tick cfg env s).state.last_portal_update = s.last_portal_update := by
  obtain ⟨u, hr, ce, pc, st, hpre⟩ := preportalShape env s
  have hlp : (calendarPhase env (opendataPhase env s)).1.last_portal_update =
      s.last_portal_update := by
    rw [hpre]
  by_cases hm : is_opendata_mode cfg = true
  · unfold tick
    dsimp only
    simp only [hm, if_true]
    exact hlp
  · simp only [Bool.not_eq_true] at hm
    have hmode : cfg.auth_mode = AuthMode.portal := by
      cases hq : cfg.auth_mode
      · rfl
      · rw [is_opendata_mode, hq] at hm
        simp at hm
    unfold tick
    dsimp only
    simp only [hm, Bool.false_eq_true, if_false]
    by_cases hdue : should_update_portal env.now s.last_portal_update = true
    · by_cases hav : env.portal_is_available = true
      · by_cases hch : chainOk cfg env = true
        · exact absurd ⟨hmode, hdue, hav, hch⟩ h
        · simp only [Bool.not_eq_true] at hch
          have hdue2 : should_update_portal env.now
              (calendarPhase env (opendataPhase env s)).1.last_portal_update =
              true := by
            rw [hlp]
            exact hdue
          obtain ⟨s3, habort, hlpu, -⟩ := portalPhase_abort cfg env
            (calendarPhase env (opendataPhase env s)).1 Snapshot.nulls
            hdue2 hav hch
          rw [habort]
          dsimp only
          rw [hlpu]
          exact hlp
      · simp only [Bool.not_eq_true] at hav
        have hdue2 : should_update_portal env.now
            (calendarPhase env (opendataPhase env s)).1.last_portal_update =
            true := by
          rw [hlp]
          exact hdue
        rw [portalPhase_offline cfg env _ Snapshot.nulls hdue2 hav]
        dsimp only
        exact hlp
    · simp only [Bool.not_eq_true] at hdue
      have hdue2 : should_update_portal env.now
          (calendarPhase env (opendataPhase env s)).1.last_portal_update =
          false := by
        rw [hlp]
        exact hdue
      rw [portalPhase_not_due cfg env _ Snapshot.nulls hdue2]
      dsimp only
      obtain ⟨r, lc, st2, hcons⟩ := consumptionPhase_shape cfg env
        { (calendarPhase env (opendataPhase env s)).1 with
            last_update_success_time := some env.now }
      rw [hcons]
      dsimp only
      exact hlp

/-- A tick whose portal chain ran to success records the tick instant as
the portal update time. -/
theorem tick_portal_ts_success (cfg : Config) (env : TickEnv)
    (s : CoordState)
    (hmode : cfg.auth_mode = AuthMode.portal)
    (hdue : should_update_portal env.now s.last_portal_update = true)
    (hav : env.portal_is_available = true)
    (hch : chainOk cfg env = true) :
    (tick cfg env s).state.last_portal_update = some env.now := by
  obtain ⟨u, hr, ce, pc, st, hpre⟩ := preportalShape env s
  have hlp : (calendarPhase env (opendataPhase env s)).1.last_portal_update =
      s.last_portal_update := by
    rw [hpre]
  have hm : is_opendata_mode cfg = false := by
    simp [is_opendata_mode, hmode]
  have hdue2 : should_update_portal env.now
      (calendarPhase env (opendataPhase env s)).1.last_portal_update =
      true := by
    rw [hlp]
    exact hdue
  unfold tick
  dsimp only
  simp only [hm, Bool.false_eq_true, if_false]
  rw [portalPhase_success cfg env _ Snapshot.nulls hdue2 hav hch]
  dsimp only
  obtain ⟨r, lc, st2, hcons⟩ := consumptionPhase_shape cfg env _
  rw [hcons]

/-- Portal-mode configuration with the winter-credit rate (D + CPC), used
as a concrete fixture. -/
def cfgPortal : Config :=
  { auth_mode := AuthMode.portal, rate := "D", rate_option := "CPC" }

/-- Opendata-mode configuration fixture. -/
def cfgOpen : Config :=
  { auth_mode := AuthMode.opendata, rate := "D", rate_option := "CPC" }

/-- A tick at 10:00 on a July day: the public feed is off-season, no
calendar entity is configured, the portal is available and every step of
the authenticated chain succeeds, fetching entities 7, 8 and 9. -/
def envPortalOk : TickEnv :=
  { now := ⟨7, 10, 0, 36000⟩
    opendata_ok := true
    calendar_entity := false
    peak_handler := false
    current_peak_count := 0
    calendar_task_done := false
    portal_is_available := true
    session_expired := false
    login_ok := true
    get_info_ok := true
    fetch_customers_ok := true
    customer_info_ok := true
    periods_ok := true
    outages_ok := true
    rate_ok := true
    fail_http := false
    fetched_customer := 7
    fetched_account := 8
    fetched_contract := 9
    enable_consumption_sync := true
    regular_task_done := false }

/-- The same day one minute later: with hour 10 outside the portal active
window the portal interval is 10800 seconds, so 60 elapsed seconds skip the
portal section. -/
def envSkipSoon : TickEnv :=
  { envPortalOk with now := ⟨7, 10, 1, 36060⟩ }

/-- The same day one hour later, with the stored consumption-sync task
reporting not done; 3600 elapsed seconds leave the portal section skipped
but make the consumption sync due again. -/
def envHourLater : TickEnv :=
  { envPortalOk with now := ⟨7, 11, 0, 39600⟩ }

/-- Same instant as envPortalOk but the portal reports unavailable. -/
def envOffline : TickEnv :=
  { envPortalOk with portal_is_available := false }

/-- Same instant as envPortalOk with a configured calendar entity, a live
peak handler, and an observed peak-event count of 3. -/
def envCal : TickEnv :=
  { envPortalOk with
      calendar_entity := true
      peak_handler := true
      current_peak_count := 3 }

/-- C2: in portal mode, when the portal fetch is due and the portal is
available but some step of the authenticated chain raises, the tick ends in
UpdateFailed carrying the HTTP-versus-other classification of the
underlying exception, the published snapshot - and with it every
authenticated field - stays exactly the pre-tick one, and the portal
update time is unchanged. -/
theorem C2_chain_failure_atomic (cfg : Config) (env : TickEnv)
    (s : CoordState) (prev : Snapshot)
    (hmode : cfg.auth_mode = AuthMode.portal)
    (hdue : should_update_portal env.now s.last_portal_update = true)
    (hav : env.portal_is_available = true)
    (hchain : chainOk cfg env = false) :
    (tick cfg env s).result = TickResult.failed env.fail_http ∧
      publish prev (tick cfg env s).result = prev ∧
      (tick cfg env s).state.last_portal_update = s.last_portal_update := by
  obtain ⟨u, hr, ce, pc, st, hpre⟩ := preportalShape env s
  have hlp : (calendarPhase env (opendataPhase env s)).1.last_portal_update =
      s.last_portal_update := by
    rw [hpre]
  have hdue2 : should_update_portal env.now
      (calendarPhase env (opendataPhase env s)).1.last_portal_update =
      true := by
    rw [hlp]
    exact hdue
  obtain ⟨s3, habort, hlpu, -⟩ := portalPhase_abort cfg env
    (calendarPhase env (opendataPhase env s)).1 Snapshot.nulls
    hdue2 hav hchain
  have hm : is_opendata_mode cfg = false := by
    simp [is_opendata_mode, hmode]
  unfold tick
  dsimp only
  simp only [hm, Bool.false_eq_true, if_false]
  rw [habort]
  dsimp only
  refine ⟨rfl, rfl, ?_⟩
  rw [hlpu]
  exact hlp

/-- C2 witness: the refresh-outages step raising a non-HTTP exception on a
first portal tick fails the tick, keeps the previously published snapshot,
and leaves the portal update time unset. -/
theorem C2_witness :
    (tick cfgPortal { envPortalOk with outages_ok := false }
        initialState).result = TickResult.failed false ∧
      publish { contract := some 1, account := some 2, customer := some 3 }
        (tick cfgPortal { envPortalOk with outages_ok := false }
          initialState).result =
        { contract := some 1, account := some 2, customer := some 3 } ∧
      (tick cfgPortal { envPortalOk with outages_ok := false }
        initialState).state.last_portal_update = none :=
  C2_chain_failure_atomic cfgPortal { envPortalOk with outages_ok := false }
    initialState { contract := some 1, account := some 2, customer := some 3 }
    rfl (by decide) (by decide) (by decide)

/-- C1 counterexample: after a successful portal tick publishes contract 9,
the very next tick - portal skipped because only 60 seconds elapsed -
publishes a snapshot whose contract field is null, so observers do not read
the same authenticated values as before the tick, contradicting the claim. -/
theorem C1_counterexample_skip_nulls_published :
    (publish Snapshot.nulls
        (tick cfgPortal envPortalOk initialState).result).contract =
        some 9 ∧
      (publish
          (publish Snapshot.nulls
            (tick cfgPortal envPortalOk initialState).result)
          (tick cfgPortal envSkipSoon
            (tick cfgPortal envPortalOk initialState).state).result).contract =
        none := by
  decide

/-- C1 amended: on a portal-mode tick where the portal update is skipped or
the portal is reported unavailable, the tick still completes and publishes
a data dict whose authenticated fields are null - the previous values
survive only in the coordinator's internal customer/account/contract
attributes, which such a tick leaves unchanged; observers of the published
snapshot do not retain the pre-tick values. -/
theorem C1_amended_skip_publishes_nulls (cfg : Config) (env : TickEnv)
    (s : CoordState)
    (hmode : cfg.auth_mode = AuthMode.portal)
    (h : should_update_portal env.now s.last_portal_update = false ∨
      env.portal_is_available = false) :
    ∃ d, (tick cfg env s).result = TickResult.ok d ∧
      d.contract = none ∧ d.account = none ∧ d.customer = none ∧
      (tick cfg env s).state.contract_attr = s.contract_attr ∧
      (tick cfg env s).state.account_attr = s.account_attr ∧
      (tick cfg env s).state.customer_attr = s.customer_attr := by
  obtain ⟨u, hr, ce, pc, st, hpre⟩ := preportalShape env s
  have hlp : (calendarPhase env (opendataPhase env s)).1.last_portal_update =
      s.last_portal_update := by
    rw [hpre]
  have hm : is_opendata_mode cfg = false := by
    simp [is_opendata_mode, hmode]
  have hca : (calendarPhase env (opendataPhase env s)).1.contract_attr =
      s.contract_attr := by
    rw [hpre]
  have hab : (calendarPhase env (opendataPhase env s)).1.account_attr =
      s.account_attr := by
    rw [hpre]
  have hcu : (calendarPhase env (opendataPhase env s)).1.customer_attr =
      s.customer_attr := by
    rw [hpre]
  by_cases hdue : should_update_portal env.now s.last_portal_update = true
  · have hav : env.portal_is_available = false := by
      rcases h with h | h
      · rw [hdue] at h
        exact absurd h (by simp)
      · exact h
    have hdue2 : should_update_portal env.now
        (calendarPhase env (opendataPhase env s)).1.last_portal_update =
        true := by
      rw [hlp]
      exact hdue
    unfold tick
    dsimp only
    simp only [hm, Bool.false_eq_true, if_false]
    rw [portalPhase_offline cfg env _ Snapshot.nulls hdue2 hav]
    dsimp only
    exact ⟨Snapshot.nulls, rfl, rfl, rfl, rfl, hca, hab, hcu⟩
  · simp only [Bool.not_eq_true] at hdue
    have hdue2 : should_update_portal env.now
        (calendarPhase env (opendataPhase env s)).1.last_portal_update =
        false := by
      rw [hlp]
      exact hdue
    unfold tick
    dsimp only
    simp only [hm, Bool.false_eq_true, if_false]
    rw [portalPhase_not_due cfg env _ Snapshot.nulls hdue2]
    dsimp only
    obtain ⟨r, lc, st2, hcons⟩ := consumptionPhase_shape cfg env
      { (calendarPhase env (opendataPhase env s)).1 with
          last_update_success_time := some env.now }
    rw [hcons]
    dsimp only
    exact ⟨Snapshot.nulls, rfl, rfl, rfl, rfl, hca, hab, hcu⟩

/-- C1 amended witness: a first portal tick finding the portal offline
publishes the all-null data dict and leaves the (unset) attributes alone. -/
theorem C1_amended_witness :
    ∃ d, (tick cfgPortal envOffline initialState).result =
        TickResult.ok d ∧
      d.contract = none ∧ d.account = none ∧ d.customer = none ∧
      (tick cfgPortal envOffline initialState).state.contract_attr =
        initialState.contract_attr ∧
      (tick cfgPortal envOffline initialState).state.account_attr =
        initialState.account_attr ∧
      (tick cfgPortal envOffline initialState).state.customer_attr =
        initialState.customer_attr :=
  C1_amended_skip_publishes_nulls cfgPortal envOffline initialState rfl
    (Or.inr rfl)

/-- C4 counterexample: a portal-mode tick that finds the portal unavailable
returns the data dict normally (no tick-level failure, snapshot published)
yet leaves the tick completion time unrecorded - still unset - because the
unavailable branch returns before the completion-time write, contradicting
the claim that every non-aborting tick records it. -/
theorem C4_counterexample_offline_no_completion_time :
    (tick cfgPortal envOffline initialState).result =
        TickResult.ok Snapshot.nulls ∧
      (tick cfgPortal envOffline
        initialState).state.last_update_success_time = none := by
  decide

/-- C4 amended: every tick that does not abort publishes a snapshot, but
the completion time is recorded only on ticks that run past the portal
section: a portal-mode tick whose portal fetch is skipped or fully
succeeds records it, while an opendata-mode tick and a portal-mode tick
that found the portal unavailable return early, publishing the snapshot
with the completion time unchanged. -/
theorem C4_amended_completion_time (cfg : Config) (env : TickEnv)
    (s : CoordState) :
    (cfg.auth_mode = AuthMode.opendata →
      (tick cfg env s).result = TickResult.ok Snapshot.nulls ∧
        (tick cfg env s).state.last_update_success_time =
          s.last_update_success_time) ∧
      (cfg.auth_mode = AuthMode.portal →
        should_update_portal env.now s.last_portal_update = false →
        (tick cfg env s).result = TickResult.ok Snapshot.nulls ∧
          (tick cfg env s).state.last_update_success_time = some env.now) ∧
      (cfg.auth_mode = AuthMode.portal →
        should_update_portal env.now s.last_portal_update = true →
        env.portal_is_available = false →
        (tick cfg env s).result = TickResult.ok Snapshot.nulls ∧
          (tick cfg env s).state.last_update_success_time =
            s.last_update_success_time) ∧
      (cfg.auth_mode = AuthMode.portal →
        should_update_portal env.now s.last_portal_update = true →
        env.portal_is_available = true → chainOk cfg env = true →
        ∃ d, (tick cfg env s).result = TickResult.ok d ∧
          (tick cfg env s).state.last_update_success_time = some env.now) := by
  obtain ⟨u, hr, ce, pc, st, hpre⟩ := preportalShape env s
  have hlp : (calendarPhase env (opendataPhase env s)).1.last_portal_update =
      s.last_portal_update := by
    rw [hpre]
  have htime : (calendarPhase env
      (opendataPhase env s)).1.last_update_success_time =
      s.last_update_success_time := by
    rw [hpre]
  refine ⟨?_, ?_, ?_, ?_⟩
  · intro hmode
    have hm : is_opendata_mode cfg = true := by
      simp [is_opendata_mode, hmode]
    unfold tick
    dsimp only
    simp only [hm, if_true]
    exact ⟨trivial, htime⟩
  · intro hmode hdue
    have hm : is_opendata_mode cfg = false := by
      simp [is_opendata_mode, hmode]
    have hdue2 : should_update_portal env.now
        (calendarPhase env (opendataPhase env s)).1.last_portal_update =
        false := by
      rw [hlp]
      exact hdue
    unfold tick
    dsimp only
    simp only [hm, Bool.false_eq_true, if_false]
    rw [portalPhase_not_due cfg env _ Snapshot.nulls hdue2]
    dsimp only
    obtain ⟨r, lc, st2, hcons⟩ := consumptionPhase_shape cfg env
      { (calendarPhase env (opendataPhase env s)).1 with
          last_update_success_time := some env.now }
    rw [hcons]
    dsimp only
    exact ⟨rfl, rfl⟩
  · intro hmode hdue hav
    have hm : is_opendata_mode cfg = false := by
      simp [is_opendata_mode, hmode]
    have hdue2 : should_update_portal env.now
        (calendarPhase env (opendataPhase env s)).1.last_portal_update =
        true := by
      rw [hlp]
      exact hdue
    unfold tick
    dsimp only
    simp only [hm, Bool.false_eq_true, if_false]
    rw [portalPhase_offline cfg env _ Snapshot.nulls hdue2 hav]
    dsimp only
    exact ⟨rfl, htime⟩
  · intro hmode hdue hav hch
    have hm : is_opendata_mode cfg = false := by
      simp [is_opendata_mode, hmode]
    have hdue2 : should_update_portal env.now
        (calendarPhase env (opendataPhase env s)).1.last_portal_update =
        true := by
      rw [hlp]
      exact hdue
    unfold tick
    dsimp only
    simp only [hm, Bool.false_eq_true, if_false]
    rw [portalPhase_success cfg env _ Snapshot.nulls hdue2 hav hch]
    dsimp only
    obtain ⟨r, lc, st2, hcons⟩ := consumptionPhase_shape cfg env _
    rw [hcons]
    dsimp only
    exact ⟨_, rfl, rfl⟩

/-- C4 amended witness: a portal-mode tick whose portal fetch is skipped
(60 elapsed seconds against a 10800-second interval) publishes the data
dict and records the tick completion time. -/
theorem C4_amended_witness :
    (tick cfgPortal envSkipSoon
        { initialState with last_portal_update := some ⟨7, 10, 0, 36000⟩ }).result =
        TickResult.ok Snapshot.nulls ∧
      (tick cfgPortal envSkipSoon
        { initialState with
            last_portal_update :=
              some ⟨7, 10, 0, 36000⟩ }).state.last_update_success_time =
        some envSkipSoon.now :=
  (C4_amended_completion_time cfgPortal envSkipSoon
    { initialState with last_portal_update := some ⟨7, 10, 0, 36000⟩ }).2.1
    rfl (by decide)

/-- C3 counterexample: a first portal tick starts a consumption-sync task
and stores its handle; one hour later, with the stored handle reporting not
done, the tick starts a second consumption-sync task anyway - the
consumption-sync guard checks only elapsed time, never whether the prior
task is still running, so two running tasks can share the name. -/
theorem C3_counterexample_concurrent_consumption :
    (tick cfgPortal envPortalOk initialState).started_consumption_sync =
        true ∧
      (tick cfgPortal envPortalOk
        initialState).state.regular_sync_task_exists = true ∧
      envHourLater.regular_task_done = false ∧
      (tick cfgPortal envHourLater
        (tick cfgPortal envPortalOk
          initialState).state).started_consumption_sync = true := by
  decide

/-- C3 amended: the calendar-sync task is deduplicated - a tick starts one
only when no stored calendar task is still running - but the
consumption-sync task is guarded only by mode, configuration and the
3600-second elapsed-time check: a tick can start one while a prior
consumption-sync task is still running. -/
theorem C3_amended_task_dedup (cfg : Config) (env : TickEnv)
    (s : CoordState) :
    ((tick cfg env s).started_calendar_sync = true →
      (s.calendar_task_exists = false ∨ env.calendar_task_done = true)) ∧
      ((tick cfg env s).started_consumption_sync = true →
        (cfg.auth_mode = AuthMode.portal ∧
          env.enable_consumption_sync = true ∧
          (s.last_consumption_sync = none ∨
            ∃ t, s.last_consumption_sync = some t ∧
              env.now.sec - t.sec ≥ 3600))) := by
  obtain ⟨u, hr, hod⟩ := opendataPhase_shape env s
  constructor
  · intro h
    rw [(tick_cal cfg env s).1] at h
    have hc := (calendarPhase_started_iff env (opendataPhase env s)).mp h
    rw [hod] at hc
    exact hc.2.2.2
  · intro h
    obtain ⟨u2, hr2, ce, pc, st, hpre⟩ := preportalShape env s
    by_cases hm : is_opendata_mode cfg = true
    · unfold tick at h
      dsimp only at h
      simp only [hm, if_true] at h
      exact absurd h (by simp)
    · simp only [Bool.not_eq_true] at hm
      unfold tick at h
      dsimp only at h
      simp only [hm, Bool.false_eq_true, if_false] at h
      cases hps : portalPhase cfg env
          (calendarPhase env (opendataPhase env s)).1 Snapshot.nulls with
      | offline s3 d3 =>
        rw [hps] at h
        dsimp only at h
        exact absurd h (by simp)
      | aborted s3 http =>
        rw [hps] at h
        dsimp only at h
        exact absurd h (by simp)
      | proceed s3 d3 =>
        rw [hps] at h
        dsimp only at h
        have hcs := consumptionPhase_started cfg env
          { s3 with last_update_success_time := some env.now } h
        have hk := (portalPhase_state_keeps cfg env
          (calendarPhase env (opendataPhase env s)).1 Snapshot.nulls).2.2.2.2.2.1
        rw [hps] at hk
        dsimp only [PortalOutcome.state] at hk
        rw [hpre] at hk
        have hmode : cfg.auth_mode = AuthMode.portal := by
          have := hcs.1
          rw [is_portal_mode] at this
          cases hq : cfg.auth_mode
          · rfl
          · rw [hq] at this
            simp at this
        refine ⟨hmode, hcs.2.1, ?_⟩
        have hlc := hcs.2.2
        dsimp only at hlc
        rw [hk] at hlc
        exact hlc

/-- C3 amended witness: with a calendar entity configured, a changed peak
count and no stored calendar task, the tick starts a calendar sync, and
the dedupe condition the theorem extracts indeed held. -/
theorem C3_amended_witness :
    initialState.calendar_task_exists = false ∨
      envCal.calendar_task_done = true :=
  (C3_amended_task_dedup cfgOpen envCal initialState).1 (by decide)

/-- C9: each source's last-update timestamp is written only by a tick in
which that source's fetch ran to success, in which case it becomes the
tick instant; any tick in which the source's fetch was skipped or failed
leaves that timestamp exactly as it was before the tick; and under a
non-rewinding clock the timestamps only move forward. -/
theorem C9_timestamp_advance (cfg : Config) (env : TickEnv)
    (s : CoordState) :
    ((should_update_opendata env.now s.last_opendata_update = false ∨
        env.opendata_ok = false) →
      (tick cfg env s).state.last_opendata_update =
        s.last_opendata_update) ∧
      (should_update_opendata env.now s.last_opendata_update = true →
        env.opendata_ok = true →
        (tick cfg env s).state.last_opendata_update = some env.now) ∧
      (¬(cfg.auth_mode = AuthMode.portal ∧
          should_update_portal env.now s.last_portal_update = true ∧
          env.portal_is_available = true ∧ chainOk cfg env = true) →
        (tick cfg env s).state.last_portal_update = s.last_portal_update) ∧
      (cfg.auth_mode = AuthMode.portal →
        should_update_portal env.now s.last_portal_update = true →
        env.portal_is_available = true → chainOk cfg env = true →
        (tick cfg env s).state.last_portal_update = some env.now) ∧
      ((∀ t, s.last_opendata_update = some t → t.sec ≤ env.now.sec) →
        ∀ t w, s.last_opendata_update = some t →
          (tick cfg env s).state.last_opendata_update = some w →
          t.sec ≤ w.sec) ∧
      ((∀ t, s.last_portal_update = some t → t.sec ≤ env.now.sec) →
        ∀ t w, s.last_portal_update = some t →
          (tick cfg env s).state.last_portal_update = some w →
          t.sec ≤ w.sec) := by
  refine ⟨?_, ?_, tick_portal_ts_unchanged cfg env s,
    tick_portal_ts_success cfg env s, ?_, ?_⟩
  · intro h
    rw [tick_od_ts]
    rcases h with h | h
    · rw [opendataPhase_not_due env s h]
    · rw [opendataPhase_fetch_failed env s h]
  · intro hdue hok
    rw [tick_od_ts]
    exact opendataPhase_success env s hdue hok
  · intro hmono t w ht hw
    have hd : (tick cfg env s).state.last_opendata_update =
        s.last_opendata_update ∨
        (tick cfg env s).state.last_opendata_update = some env.now := by
      rw [tick_od_ts]
      exact opendataPhase_ts_dichotomy env s
    rcases hd with hd | hd
    · rw [hd, ht] at hw
      rw [Option.some.injEq] at hw
      rw [hw] at ht
      exact le_of_eq (by rw [← hw])
    · rw [hd] at hw
      rw [Option.some.injEq] at hw
      rw [← hw]
      exact hmono t ht
  · intro hmono t w ht hw
    rcases tick_portal_ts_dichotomy cfg env s with hd | hd
    · rw [hd, ht] at hw
      rw [Option.some.injEq] at hw
      exact le_of_eq (by rw [hw])
    · rw [hd] at hw
      rw [Option.some.injEq] at hw
      rw [← hw]
      exact hmono t ht

/-- C9 witness: a first successful portal tick advances the portal update
time from unset to the tick instant. -/
theorem C9_witness :
    (tick cfgPortal envPortalOk initialState).state.last_portal_update =
      some ⟨7, 10, 0, 36000⟩ :=
  (C9_timestamp_advance cfgPortal envPortalOk initialState).2.2.2.1
    rfl (by decide) rfl (by decide)

/-- C10: the recorded peak-event count - the calendar-sync trigger key -
is updated only on ticks that actually start a calendar-sync task; when
the observed count changed but the stored sync task is still running, no
task starts and the recorded count is kept, so the same changed condition
starts a task on a later tick once the stored task reports done, with the
count recorded only then. -/
theorem C10_calendar_trigger_key (cfg : Config) (env : TickEnv)
    (s : CoordState) :
    ((tick cfg env s).started_calendar_sync = false →
      (tick cfg env s).state.last_peak_events_count =
        s.last_peak_events_count) ∧
      (env.calendar_entity = true → env.peak_handler = true →
        env.current_peak_count ≠ s.last_peak_events_count →
        s.calendar_task_exists = true → env.calendar_task_done = false →
        (tick cfg env s).started_calendar_sync = false ∧
          (tick cfg env s).state.last_peak_events_count =
            s.last_peak_events_count) ∧
      (env.calendar_entity = true → env.peak_handler = true →
        env.current_peak_count ≠ s.last_peak_events_count →
        (s.calendar_task_exists = false ∨ env.calendar_task_done = true) →
        (tick cfg env s).started_calendar_sync = true ∧
          (tick cfg env s).state.last_peak_events_count =
            env.current_peak_count) := by
  obtain ⟨u, hr, hod⟩ := opendataPhase_shape env s
  obtain ⟨hc1, hc2, hc3⟩ := tick_cal cfg env s
  have hodc : (opendataPhase env s).last_peak_events_count =
      s.last_peak_events_count := by
    rw [hod]
  have hodf : (opendataPhase env s).calendar_task_exists =
      s.calendar_task_exists := by
    rw [hod]
  refine ⟨?_, ?_, ?_⟩
  · intro h
    rw [hc1] at h
    have hkeep := calendarPhase_no_start_keeps env (opendataPhase env s) h
    rw [hc2, hkeep]
    exact hodc
  · intro he hp hne hrun hnotdone
    have hb : (calendarPhase env (opendataPhase env s)).2 = false := by
      cases hb : (calendarPhase env (opendataPhase env s)).2
      · rfl
      · have := (calendarPhase_started_iff env (opendataPhase env s)).mp hb
        rw [hodf] at this
        rcases this.2.2.2 with hx | hx
        · rw [hrun] at hx
          exact absurd hx (by simp)
        · rw [hnotdone] at hx
          exact absurd hx (by simp)
    have hkeep := calendarPhase_no_start_keeps env (opendataPhase env s) hb
    constructor
    · rw [hc1]
      exact hb
    · rw [hc2, hkeep]
      exact hodc
  · intro he hp hne hfree
    have hb : (calendarPhase env (opendataPhase env s)).2 = true := by
      refine (calendarPhase_started_iff env (opendataPhase env s)).mpr
        ⟨he, hp, ?_, ?_⟩
      · rw [hodc]
        exact hne
      · rw [hodf]
        exact hfree
    constructor
    · rw [hc1]
      exact hb
    · rw [hc2]
      exact calendarPhase_start_records env (opendataPhase env s) hb

/-- C10 witness: with a calendar entity, a live handler, an observed count
of 3 against a recorded 0 and no stored task, the tick starts the calendar
sync and records 3 as the new trigger key. -/
theorem C10_witness :
    (tick cfgOpen envCal initialState).started_calendar_sync = true ∧
      (tick cfgOpen envCal initialState).state.last_peak_events_count = 3 :=
  (C10_calendar_trigger_key cfgOpen envCal initialState).2.2
    rfl rfl (by decide) (Or.inl rfl)

end Hydroqc
